import Mathlib

/-!
Verification of the image-service router (src/server/routes/images.js).

The router is embedded shallowly: each Express handler becomes a pure Lean
function from the request inputs and the current store state to a response
and a new state.  External collaborators (authentication, Cloudinary, the
Mongo document stores, multer) appear as explicit inputs:
the authenticated caller is a user-id parameter, the outcome of each
object-storage call is an Except parameter, and the document stores are
lists of records inside a State value.  System-generated record ids are
passed in as parameters.
-/

namespace PicStore

/-- A folder document (consumed, not owned, by this module). -/
structure Folder where
  id : String
  owner : String
  name : String
  path : String
deriving DecidableEq

/-- An image metadata document, with the fields persisted by the upload
handler.  The folder field is an optional reference (absent = root). -/
structure Image where
  id : String
  name : String
  cloudinaryUrl : String
  cloudinaryPublicId : String
  folder : Option String
  owner : String
  size : Nat
  mimetype : String
deriving DecidableEq

/-- The two document collections the router touches. -/
structure State where
  folders : List Folder
  images : List Image
deriving DecidableEq

/-- The two folder fields selected by populate, as in
populate of folder with fields name and path. -/
structure FolderInfo where
  name : String
  path : String
deriving DecidableEq

/-- An image as returned in a response body: the record together with the
populated folder reference (none when the reference is absent or dangling). -/
structure PImage where
  image : Image
  folderInfo : Option FolderInfo
deriving DecidableEq

/-- The file payload fields the handler reads from the multipart intake. -/
structure FileInfo where
  size : Nat
  mimetype : String
deriving DecidableEq

/-- The result of a successful object-storage upload call. -/
structure CloudResult where
  secure_url : String
  public_id : String
deriving DecidableEq

/-- JSON response bodies produced by the router. -/
inductive Body where
  | imageList (xs : List PImage)
  | singleImage (x : PImage)
  | message (s : String)
deriving DecidableEq

/-- An HTTP response: status code and JSON body. -/
structure Response where
  status : Nat
  body : Body
deriving DecidableEq

/-- Errors that can reach the error-handling middleware at the bottom of the
router.  A multerError models an instance of multer.MulterError with its
code; a plainError models an ordinary Error (as thrown by the fileFilter
callback); a validationError models a Mongoose error whose name field is
ValidationError, carrying the individual field messages. -/
inductive JsError where
  | multerError (code : String) (msg : String)
  | plainError (msg : String)
  | validationError (msgs : List String)
deriving DecidableEq

/-- Outcome of the persistence-layer save call on a new Image document:
either it persists the record, or it throws a Mongoose ValidationError
carrying the individual field messages. -/
inductive SaveOutcome where
  | ok
  | validationError (msgs : List String)
deriving DecidableEq

/-! Executable string primitives.  The JavaScript string operations the
router relies on (trim, toLowerCase, split, lexicographic comparison) are
written out over the character list of the string, so that every handler is
computable by the kernel on concrete inputs. -/

/-- Whitespace as stripped by the JavaScript trim. -/
def isWsChar (c : Char) : Bool :=
  c == ' ' || c == '\t' || c == '\n' || c == '\r'

/-- Drop leading whitespace characters. -/
def dropWs : List Char → List Char
  | [] => []
  | c :: t => if isWsChar c then dropWs t else c :: t

/-- The JavaScript trim: strip leading and trailing whitespace. -/
def strTrim (s : String) : String :=
  ⟨(dropWs (dropWs s.data).reverse).reverse⟩

/-- ASCII lower-casing of one character (the JavaScript toLowerCase on the
ASCII range). -/
def lowerChar (c : Char) : Char :=
  if 65 ≤ c.toNat && c.toNat ≤ 90 then Char.ofNat (c.toNat + 32) else c

/-- Lower-case a character list. -/
def lowerChars (l : List Char) : List Char :=
  l.map lowerChar

/-- Lexicographic comparison of character lists by code point, the order the
metadata store sorts names by. -/
def charListLe : List Char → List Char → Bool
  | [], _ => true
  | _ :: _, [] => false
  | a :: as, b :: bs =>
    Nat.blt a.toNat b.toNat || (a.toNat == b.toNat && charListLe as bs)

/-- Name order: lexicographic by code point. -/
def strLe (a b : String) : Bool :=
  charListLe a.data b.data

/-- The JavaScript split on a comma. -/
def splitCommaAux (cur : List Char) : List Char → List String
  | [] => [⟨cur.reverse⟩]
  | c :: t =>
    if c == ',' then ⟨cur.reverse⟩ :: splitCommaAux [] t
    else splitCommaAux (c :: cur) t

/-- The JavaScript split on a comma, of a whole string. -/
def splitComma (s : String) : List String :=
  splitCommaAux [] s.data

/-- JavaScript truthiness of an optional string request field:
undefined and the empty string are falsy. -/
def jsTruthy : Option String → Bool
  | none => false
  | some s => !(s == "")

/-- The name check used by upload and rename:
the JavaScript condition not name, or not name.trim(). -/
def nameMissing (n : Option String) : Bool :=
  !(jsTruthy n) || (strTrim (n.getD "") == "")

/-- Boolean test that the first list is a prefix of the second. -/
def listPrefixEq : List Char → List Char → Bool
  | [], _ => true
  | _ :: _, [] => false
  | a :: as, b :: bs => a == b && listPrefixEq as bs

/-- Boolean substring containment on character lists: the first argument
occurs contiguously inside the second. -/
def listContains (ned : List Char) : List Char → Bool
  | [] => listPrefixEq ned []
  | c :: t => listPrefixEq ned (c :: t) || listContains ned t

/-- The JavaScript string includes test: hay contains ned. -/
def strIncludes (hay ned : String) : Bool :=
  listContains ned.toList hay.toList

/-- Modelled from the spec: the metadata store applies the search pattern as
a case-insensitive regular expression on the name field (regex option i);
for the literal patterns the spec describes this is case-insensitive
substring containment.  The store itself is an external collaborator, so
its matching semantics are taken from the behavior section of the spec. -/
def regexIMatch (pat name : String) : Bool :=
  listContains (lowerChars pat.data) (lowerChars name.data)

/-- Folder.findOne with filter id and owner. -/
def folderFindOne (st : State) (fid u : String) : Option Folder :=
  st.folders.find? (fun f => f.id == fid && f.owner == u)

/-- The populate step: resolve an optional folder reference to the selected
fields name and path; a dangling or absent reference populates to none. -/
def lookupFolderInfo (st : State) : Option String → Option FolderInfo
  | none => none
  | some fid => (st.folders.find? (fun f => f.id == fid)).map (fun f => ⟨f.name, f.path⟩)

/-- Attach the populated folder reference to an image for a response body. -/
def expandFolder (st : State) (im : Image) : PImage :=
  ⟨im, lookupFolderInfo st im.folder⟩

/-- Totality of the name order. -/
theorem charListLe_total : ∀ l₁ l₂ : List Char,
    charListLe l₁ l₂ = true ∨ charListLe l₂ l₁ = true
  | [], _ => .inl rfl
  | _ :: _, [] => .inr rfl
  | a :: as, b :: bs => by
    rcases Nat.lt_trichotomy a.toNat b.toNat with h | h | h
    · left
      simp [charListLe, Nat.blt_eq, h]
    · rcases charListLe_total as bs with ih | ih
      · left
        simp [charListLe, Nat.blt_eq, h, ih]
      · right
        simp [charListLe, Nat.blt_eq, h.symm, ih]
    · right
      simp [charListLe, Nat.blt_eq, h]

/-- Transitivity of the name order. -/
theorem charListLe_trans : ∀ l₁ l₂ l₃ : List Char,
    charListLe l₁ l₂ = true → charListLe l₂ l₃ = true → charListLe l₁ l₃ = true
  | [], _, _, _, _ => rfl
  | _ :: _, [], _, h₁, _ => by simp [charListLe] at h₁
  | _ :: _, _ :: _, [], _, h₂ => by simp [charListLe] at h₂
  | a :: as, b :: bs, c :: cs, h₁, h₂ => by
    simp only [charListLe, Bool.or_eq_true, Bool.and_eq_true, Nat.blt_eq, beq_iff_eq] at h₁ h₂ ⊢
    rcases h₁ with h₁ | ⟨h₁e, h₁r⟩ <;> rcases h₂ with h₂ | ⟨h₂e, h₂r⟩
    · exact .inl (lt_trans h₁ h₂)
    · exact .inl (h₂e ▸ h₁)
    · exact .inl (h₁e ▸ h₂)
    · exact .inr ⟨h₁e.trans h₂e, charListLe_trans as bs cs h₁r h₂r⟩

/-- The sort key used by every list-returning query: name ascending. -/
def imgLe (a b : Image) : Prop := strLe a.name b.name = true

instance : DecidableRel imgLe :=
  fun a b => inferInstanceAs (Decidable (strLe a.name b.name = true))

instance : IsTotal Image imgLe :=
  ⟨fun a b => charListLe_total a.name.data b.name.data⟩

instance : IsTrans Image imgLe :=
  ⟨fun a b c h₁ h₂ => charListLe_trans a.name.data b.name.data c.name.data h₁ h₂⟩

/-- Name-ascending order on populated images. -/
def pimgLe (a b : PImage) : Prop := strLe a.image.name b.image.name = true

/-- The sort of a query result by name ascending. -/
def sortByName (l : List Image) : List Image :=
  List.insertionSort imgLe l

/-- The filter of the list route: owner is the caller, and the folder field
either equals the given id or is absent (the exists-false query). -/
def listFilter (u : String) (fopt : Option String) (im : Image) : Bool :=
  im.owner == u && im.folder == fopt

/-- The body of a successful list response: matching images sorted by name
ascending, each with the folder reference populated. -/
def listResult (st : State) (u : String) (fopt : Option String) : List PImage :=
  (sortByName (st.images.filter (listFilter u fopt))).map (expandFolder st)

/-- GET images: list the images of a folder, or of the root when the folder
query parameter is absent or empty (falsy).  A supplied folder id must name
a folder owned by the caller, else 404. -/
def listImages (st : State) (u : String) (folderParam : Option String) : Response :=
  if jsTruthy folderParam then
    match folderFindOne st (folderParam.getD "") u with
    | none => ⟨404, .message "Folder not found"⟩
    | some _ => ⟨200, .imageList (listResult st u (some (folderParam.getD "")))⟩
  else
    ⟨200, .imageList (listResult st u none)⟩

/-- The images matching a search: scoped to the owner, name matched by the
trimmed pattern case-insensitively, across all folders. -/
def searchMatching (st : State) (u pat : String) : List Image :=
  st.images.filter (fun im => im.owner == u && regexIMatch pat im.name)

/-- The body of a search response: matches sorted by name ascending, capped
at 50 results, populated. -/
def searchResultList (st : State) (u pat : String) : List PImage :=
  ((sortByName (searchMatching st u pat)).take 50).map (expandFolder st)

/-- GET images search: empty or absent query (falsy, or blank after trim)
returns an empty list at once; otherwise the matching images. -/
def searchImages (st : State) (u : String) (q : Option String) : Response :=
  if !(jsTruthy q) || (strTrim (q.getD "") == "") then
    ⟨200, .imageList []⟩
  else
    ⟨200, .imageList (searchResultList st u (strTrim (q.getD "")))⟩

/-- The duplicate-name test of the upload route: an existing image with the
same owner, the same folder id, and exactly the trimmed target name. -/
def uploadDup (u fid n : String) (im : Image) : Bool :=
  im.owner == u && im.folder == some fid && im.name == n

/-- POST images upload.  The outcome of the object-storage call and of the
persistence-layer save are inputs (they are external effects); newId is the
system-generated id of the record.  The inner try of the handler wraps the
storage call, the construction of the record, the save and the populate, so
a failure of ANY of these (the save included) is answered by the inner
catch with 500 and the storage-failure message. -/
def uploadImage (st : State) (u : String) (name folderId : Option String)
    (file : Option FileInfo) (newId : String)
    (cloud : Except String CloudResult) (save : SaveOutcome) :
    Response × State :=
  if nameMissing name then
    (⟨400, .message "Image name is required"⟩, st)
  else if !(jsTruthy folderId) then
    (⟨400, .message "Folder ID is required"⟩, st)
  else
    match file with
    | none => (⟨400, .message "Image file is required"⟩, st)
    | some f =>
      match folderFindOne st (folderId.getD "") u with
      | none => (⟨404, .message "Folder not found"⟩, st)
      | some _ =>
        if st.images.any (uploadDup u (folderId.getD "") (strTrim (name.getD ""))) then
          (⟨400, .message "Image with this name already exists in the folder"⟩, st)
        else
          match cloud with
          | .error _ => (⟨500, .message "Failed to upload image to cloud storage"⟩, st)
          | .ok r =>
            match save with
            | .validationError _ =>
              (⟨500, .message "Failed to upload image to cloud storage"⟩, st)
            | .ok =>
              let im : Image :=
                ⟨newId, strTrim (name.getD ""), r.secure_url, r.public_id,
                 some (folderId.getD ""), u, f.size, f.mimetype⟩
              (⟨201, .singleImage (expandFolder st im)⟩,
               ⟨st.folders, st.images ++ [im]⟩)

/-- The catch clause of the upload route (the outer one): a Mongoose
ValidationError is flattened to a 400 with the joined messages; an error
whose message includes the invalid-file-type text is a 400; anything else
is a 500.  Errors raised inside the inner storage try never reach it. -/
def uploadCatch : JsError → Response
  | .validationError msgs => ⟨400, .message (String.intercalate ", " msgs)⟩
  | .multerError _ m =>
    if strIncludes m "Invalid file type" then ⟨400, .message m⟩
    else ⟨500, .message "Server error while uploading image"⟩
  | .plainError m =>
    if strIncludes m "Invalid file type" then ⟨400, .message m⟩
    else ⟨500, .message "Server error while uploading image"⟩

/-- The folder scope the rename route queries under.  The route loads the
image with its folder reference populated and then filters on that
populated value; the store casts a populated document back to its id, and a
dangling reference has populated to null, which matches the absent field. -/
def renameDupScope (st : State) (im : Image) : Option String :=
  match im.folder with
  | none => none
  | some fid => if st.folders.any (fun f => f.id == fid) then some fid else none

/-- The duplicate-name test of the rename route: another image (excluded by
id) with the same owner, the populated folder scope, and exactly the
trimmed new name. -/
def renameDup (u : String) (scope : Option String) (n selfId : String) (im : Image) : Bool :=
  im.owner == u && im.folder == scope && im.name == n && !(im.id == selfId)

/-- PUT images by id: rename.  Name required; the image is located by id and
owner; no other image may hold the trimmed new name in the same scope; the
name is updated and the (already populated) image returned. -/
def renameImage (st : State) (u id : String) (name : Option String) :
    Response × State :=
  if nameMissing name then
    (⟨400, .message "Image name is required"⟩, st)
  else
    match st.images.find? (fun im => im.id == id && im.owner == u) with
    | none => (⟨404, .message "Image not found"⟩, st)
    | some im =>
      let n := strTrim (name.getD "")
      if st.images.any (renameDup u (renameDupScope st im) n im.id) then
        (⟨400, .message "Image with this name already exists in the folder"⟩, st)
      else
        (⟨200, .singleImage (expandFolder st { im with name := n })⟩,
         ⟨st.folders,
          st.images.map (fun o => if o.id == im.id then { im with name := n } else o)⟩)

/-- Delete the document with the given id (ids are unique in the store, so
removing the first occurrence is the findByIdAndDelete semantics). -/
def removeById (i : String) : List Image → List Image
  | [] => []
  | im :: t => if im.id == i then t else im :: removeById i t

/-- DELETE images by id.  The image is located by id and owner, else 404.
The storage deletion is attempted and its outcome is an input; a failure is
logged and ignored, and in either case the metadata record is deleted and
the same success acknowledgment returned. -/
def deleteImage (st : State) (u id : String) (storageDelete : Except String Unit) :
    Response × State :=
  match st.images.find? (fun im => im.id == id && im.owner == u) with
  | none => (⟨404, .message "Image not found"⟩, st)
  | some im =>
    match storageDelete with
    | .ok _ =>
      (⟨200, .message "Image deleted successfully"⟩, ⟨st.folders, removeById im.id st.images⟩)
    | .error _ =>
      (⟨200, .message "Image deleted successfully"⟩, ⟨st.folders, removeById im.id st.images⟩)

/-- The allow-listed content types: the comma-split of the configured value
when one is set, else the default trio. -/
def allowedTypes (cfg : Option String) : List String :=
  match cfg with
  | none => ["image/jpeg", "image/png", "image/gif"]
  | some s => splitComma s

/-- The fileFilter callback of the multer configuration: an allow-listed
content type is accepted; anything else is rejected with a plain Error (not
a multer.MulterError) carrying the descriptive message. -/
def fileFilterCheck (cfg : Option String) (mimetype : String) : Except JsError Unit :=
  if (allowedTypes cfg).contains mimetype then .ok ()
  else .error (.plainError "Invalid file type. Only JPEG, PNG and GIF images are allowed.")

/-- The configured size limit: the parsed environment value when it parses
to a nonzero number (parseInt followed by a falsy-fallback), else 5000000. -/
def fileSizeLimitBytes (cfg : Option Nat) : Nat :=
  match cfg with
  | none => 5000000
  | some n => if n == 0 then 5000000 else n

/-- Modelled from the spec: the upload-intake layer (multer itself is a
library, not part of this repository) checks the content type with the
configured fileFilter and the byte size against the configured limit before
the handler runs; an oversize file aborts with a MulterError whose code is
LIMIT_FILE_SIZE. -/
def multerIntake (sizeCfg : Option Nat) (typeCfg : Option String)
    (file : Option FileInfo) : Except JsError Unit :=
  match file with
  | none => .ok ()
  | some f =>
    match fileFilterCheck typeCfg f.mimetype with
    | .error e => .error e
    | .ok _ =>
      if fileSizeLimitBytes sizeCfg < f.size then
        .error (.multerError "LIMIT_FILE_SIZE" "File too large")
      else .ok ()

/-- The error-handling middleware at the bottom of the router: a
multer.MulterError is answered with a 400 (the size code with the fixed
5MB message, any other code with its message); every other error is passed
on to the host application (next), i.e. the router produces no response. -/
def multerErrorMiddleware : JsError → Option Response
  | .multerError code msg =>
    if code == "LIMIT_FILE_SIZE" then
      some ⟨400, .message "File size too large. Maximum size is 5MB."⟩
    else
      some ⟨400, .message ("File upload error: " ++ msg)⟩
  | .plainError _ => none
  | .validationError _ => none

/-! Sample documents and states used to instantiate the theorems. -/

/-- A sample folder owned by user u1. -/
def fA : Folder := ⟨"f1", "u1", "pics", "pics"⟩

/-- A sample image named Cat inside folder f1. -/
def imCat : Image := ⟨"i1", "Cat", "http://c", "p1", some "f1", "u1", 3, "image/png"⟩

/-- A sample image named dog inside folder f1. -/
def imDog : Image := ⟨"i2", "dog", "http://d", "p2", some "f1", "u1", 4, "image/png"⟩

/-- A sample root image (no folder reference) named ant. -/
def imAnt : Image := ⟨"i3", "ant", "http://a", "p3", none, "u1", 5, "image/gif"⟩

/-- A sample state with one folder and three images. -/
def stA : State := ⟨[fA], [imCat, imDog, imAnt]⟩

/-- A sample state with one folder and no images. -/
def stE : State := ⟨[fA], []⟩

/-! Helper lemmas about the query-result pipeline (sort, cap, populate). -/

theorem perm_sortByName (l : List Image) : List.Perm (sortByName l) l :=
  List.perm_insertionSort imgLe l

theorem sorted_sortByName (l : List Image) : List.Sorted imgLe (sortByName l) :=
  List.sorted_insertionSort imgLe l

theorem image_expandFolder (st : State) (im : Image) : (expandFolder st im).image = im :=
  rfl

theorem folderInfo_expandFolder (st : State) (im : Image) :
    (expandFolder st im).folderInfo = lookupFolderInfo st im.folder :=
  rfl

theorem map_image_map_expand (st : State) (l : List Image) :
    (l.map (expandFolder st)).map PImage.image = l := by
  induction l with
  | nil => rfl
  | cons a t ih => simp [ih, expandFolder]

theorem sorted_map_expand (st : State) (l : List Image) (h : List.Sorted imgLe l) :
    List.Sorted pimgLe (l.map (expandFolder st)) := by
  rw [List.Sorted, List.pairwise_map]
  exact h.imp (fun hab => hab)

theorem mem_map_expand (st : State) (l : List Image) (p : PImage) (hp : p ∈ l.map (expandFolder st)) :
    p.image ∈ l ∧ p.folderInfo = lookupFolderInfo st p.image.folder := by
  rcases List.mem_map.1 hp with ⟨im, him, rfl⟩
  exact ⟨him, rfl⟩

theorem removeById_id_ne (i : String) :
    ∀ l : List Image, (l.map Image.id).Nodup → ∀ x ∈ removeById i l, x.id ≠ i
  | [], _, x, hx => by cases hx
  | im :: t, h, x, hx => by
    rw [List.map_cons, List.nodup_cons] at h
    by_cases hid : (im.id == i) = true
    · have hrm : removeById i (im :: t) = t := by simp [removeById, hid]
      rw [hrm] at hx
      have him : im.id = i := by simpa using hid
      intro hxi
      exact h.1 (him ▸ hxi ▸ List.mem_map_of_mem Image.id hx)
    · have hrm : removeById i (im :: t) = im :: removeById i t := by simp [removeById, hid]
      rw [hrm] at hx
      rcases List.mem_cons.1 hx with rfl | hx
      · intro hxi
        exact hid (by simp [hxi])
      · exact removeById_id_ne i t h.2 x hx

/-! The claims. -/

/-- C1: an upload that passes every validation and the name-availability
check, but whose object-storage call fails, is answered with a 500 carrying
the storage-failure message, and the image store is left unchanged (no
metadata record is created). -/
theorem upload_storage_failure (st : State) (u name fid newId err : String)
    (f : FileInfo) (save : SaveOutcome) (fd : Folder)
    (hn : nameMissing (some name) = false)
    (hfid : jsTruthy (some fid) = true)
    (hfd : folderFindOne st fid u = some fd)
    (hdup : st.images.any (uploadDup u fid (strTrim name)) = false) :
    uploadImage st u (some name) (some fid) (some f) newId (.error err) save =
      (⟨500, .message "Failed to upload image to cloud storage"⟩, st) := by
  simp [uploadImage, hn, hfid, hfd, hdup]

/-- Witness for C1: on a concrete store, a concrete upload whose storage
call fails yields the 500 message and the unchanged store. -/
theorem upload_storage_failure_witness :
    uploadImage stA "u1" (some "new") (some "f1") (some ⟨9, "image/png"⟩) "i9"
      (.error "boom") .ok =
      (⟨500, .message "Failed to upload image to cloud storage"⟩, stA) :=
  upload_storage_failure stA "u1" "new" "f1" "i9" "boom" ⟨9, "image/png"⟩ .ok fA
    (by decide) (by decide) (by decide) (by decide)

/-- C2: the upload validations run in a fixed order with the first failure
winning, each producing its exact status and message: blank name, then
missing folder id, then missing file, then a folder not owned by the
caller, then a duplicate trimmed name in the folder. -/
theorem upload_validation_order (st : State) (u : String) (name folderId : Option String)
    (file : Option FileInfo) (newId : String) (cloud : Except String CloudResult)
    (save : SaveOutcome) :
    (nameMissing name = true →
      uploadImage st u name folderId file newId cloud save =
        (⟨400, .message "Image name is required"⟩, st)) ∧
    (nameMissing name = false → jsTruthy folderId = false →
      uploadImage st u name folderId file newId cloud save =
        (⟨400, .message "Folder ID is required"⟩, st)) ∧
    (nameMissing name = false → jsTruthy folderId = true → file = none →
      uploadImage st u name folderId file newId cloud save =
        (⟨400, .message "Image file is required"⟩, st)) ∧
    (nameMissing name = false → jsTruthy folderId = true → file ≠ none →
      folderFindOne st (folderId.getD "") u = none →
      uploadImage st u name folderId file newId cloud save =
        (⟨404, .message "Folder not found"⟩, st)) ∧
    (∀ fd, nameMissing name = false → jsTruthy folderId = true → file ≠ none →
      folderFindOne st (folderId.getD "") u = some fd →
      st.images.any (uploadDup u (folderId.getD "") (strTrim (name.getD ""))) = true →
      uploadImage st u name folderId file newId cloud save =
        (⟨400, .message "Image with this name already exists in the folder"⟩, st)) := by
  refine ⟨?_, ?_, ?_, ?_, ?_⟩
  · intro h₁
    simp [uploadImage, h₁]
  · intro h₁ h₂
    simp [uploadImage, h₁, h₂]
  · intro h₁ h₂ h₃
    simp [uploadImage, h₁, h₂, h₃]
  · intro h₁ h₂ h₃ h₄
    rcases Option.ne_none_iff_exists.1 h₃ with ⟨f, rfl⟩
    simp [uploadImage, h₁, h₂, h₄]
  · intro fd h₁ h₂ h₃ h₄ h₅
    rcases Option.ne_none_iff_exists.1 h₃ with ⟨f, rfl⟩
    simp [uploadImage, h₁, h₂, h₄, h₅]

/-- Witness for C2: each of the five validation outcomes at a concrete
input. -/
theorem upload_validation_order_witness :
    uploadImage stE "u1" (some " ") none none "i" (.error "e") .ok =
      (⟨400, .message "Image name is required"⟩, stE) ∧
    uploadImage stE "u1" (some "n") none none "i" (.error "e") .ok =
      (⟨400, .message "Folder ID is required"⟩, stE) ∧
    uploadImage stE "u1" (some "n") (some "f1") none "i" (.error "e") .ok =
      (⟨400, .message "Image file is required"⟩, stE) ∧
    uploadImage stE "u1" (some "n") (some "f9") (some ⟨1, "image/png"⟩) "i" (.error "e") .ok =
      (⟨404, .message "Folder not found"⟩, stE) ∧
    uploadImage stA "u1" (some " Cat ") (some "f1") (some ⟨1, "image/png"⟩) "i" (.error "e") .ok =
      (⟨400, .message "Image with this name already exists in the folder"⟩, stA) :=
  ⟨(upload_validation_order stE "u1" (some " ") none none "i" (.error "e") .ok).1 (by decide),
   (upload_validation_order stE "u1" (some "n") none none "i" (.error "e") .ok).2.1
     (by decide) (by decide),
   (upload_validation_order stE "u1" (some "n") (some "f1") none "i" (.error "e") .ok).2.2.1
     (by decide) (by decide) rfl,
   (upload_validation_order stE "u1" (some "n") (some "f9") (some ⟨1, "image/png"⟩) "i"
       (.error "e") .ok).2.2.2.1 (by decide) (by decide) (by decide) (by decide),
   (upload_validation_order stA "u1" (some " Cat ") (some "f1") (some ⟨1, "image/png"⟩) "i"
       (.error "e") .ok).2.2.2.2 fA (by decide) (by decide) (by decide) (by decide) (by decide)⟩

/-- C3: delete answers 404 when no image with the given id belongs to the
caller; otherwise the metadata record is removed and a success
acknowledgment returned, and the response and resulting state do not depend
on the outcome of the storage deletion. -/
theorem delete_contract (st : State) (u id : String) (r r₂ : Except String Unit) :
    (st.images.find? (fun im => im.id == id && im.owner == u) = none →
      deleteImage st u id r = (⟨404, .message "Image not found"⟩, st)) ∧
    (∀ im, st.images.find? (fun im => im.id == id && im.owner == u) = some im →
      deleteImage st u id r =
        (⟨200, .message "Image deleted successfully"⟩,
         ⟨st.folders, removeById im.id st.images⟩) ∧
      deleteImage st u id r = deleteImage st u id r₂ ∧
      ((st.images.map Image.id).Nodup → im ∉ removeById im.id st.images)) := by
  refine ⟨?_, ?_⟩
  · intro h
    simp [deleteImage, h]
  · intro im h
    refine ⟨?_, ?_, ?_⟩
    · cases r <;> simp [deleteImage, h]
    · cases r <;> cases r₂ <;> simp [deleteImage, h]
    · intro hnod hmem
      exact removeById_id_ne im.id st.images hnod im hmem rfl

/-- Witness for C3: on a concrete store, a foreign-owner delete is a 404,
and a delete whose storage call fails still removes the record and
acknowledges success. -/
theorem delete_contract_witness :
    deleteImage stA "u2" "i1" (.ok ()) = (⟨404, .message "Image not found"⟩, stA) ∧
    deleteImage stA "u1" "i1" (.error "x") =
      (⟨200, .message "Image deleted successfully"⟩,
       ⟨stA.folders, removeById imCat.id stA.images⟩) ∧
    imCat ∉ removeById imCat.id stA.images :=
  ⟨(delete_contract stA "u2" "i1" (.ok ()) (.ok ())).1 (by decide),
   ((delete_contract stA "u1" "i1" (.error "x") (.ok ())).2 imCat (by decide)).1,
   ((delete_contract stA "u1" "i1" (.error "x") (.ok ())).2 imCat (by decide)).2.2 (by decide)⟩

/-- C4: a search with an absent or blank query returns the empty list at
once; a nonblank query returns the images of the caller whose names contain
the trimmed query case-insensitively, populated, sorted by name ascending
and capped at 50 results; when at most 50 images match, the result is
exactly the matching set. -/
theorem search_contract (st : State) (u : String) (q : Option String) :
    ((!(jsTruthy q) || (strTrim (q.getD "") == "")) = true →
      searchImages st u q = ⟨200, .imageList []⟩) ∧
    (∀ s, q = some s → (s == "") = false → (strTrim s == "") = false →
      searchImages st u q = ⟨200, .imageList (searchResultList st u (strTrim s))⟩) ∧
    (∀ pat, (searchResultList st u pat).length ≤ 50) ∧
    (∀ pat, List.Sorted pimgLe (searchResultList st u pat)) ∧
    (∀ pat p, p ∈ searchResultList st u pat →
      p.image ∈ st.images ∧ p.image.owner = u ∧ regexIMatch pat p.image.name = true ∧
      p.folderInfo = lookupFolderInfo st p.image.folder) ∧
    (∀ pat, (searchMatching st u pat).length ≤ 50 →
      List.Perm ((searchResultList st u pat).map PImage.image) (searchMatching st u pat)) := by
  refine ⟨?_, ?_, ?_, ?_, ?_, ?_⟩
  · intro h
    simp [searchImages, h]
  · intro s hq h1 h2
    subst hq
    simp [searchImages, jsTruthy, h1, h2]
  · intro pat
    simp only [searchResultList, List.length_map]
    exact List.length_take_le 50 _
  · intro pat
    exact sorted_map_expand st _
      (List.Pairwise.sublist (List.take_sublist 50 _) (sorted_sortByName _))
  · intro pat p hp
    simp only [searchResultList] at hp
    have h := mem_map_expand st _ p hp
    have h1 : p.image ∈ sortByName (searchMatching st u pat) :=
      List.take_subset 50 _ h.1
    have h2 : p.image ∈ searchMatching st u pat := (perm_sortByName _).mem_iff.1 h1
    rw [searchMatching, List.mem_filter] at h2
    have h3 := h2.2
    rw [Bool.and_eq_true, beq_iff_eq] at h3
    exact ⟨h2.1, h3.1, h3.2, h.2⟩
  · intro pat hlen
    have hlen2 : (sortByName (searchMatching st u pat)).length ≤ 50 := by
      rw [(perm_sortByName _).length_eq]
      exact hlen
    simp only [searchResultList]
    rw [List.take_of_length_le hlen2, map_image_map_expand]
    exact perm_sortByName _

/-- Witness for C4: concrete searches on a concrete store, including a
blank query, a query matching two of three images, and the cap and sort
properties at that input. -/
theorem search_contract_witness :
    searchImages stA "u1" (some " ") = ⟨200, .imageList []⟩ ∧
    searchImages stA "u1" (some "a") =
      ⟨200, .imageList (searchResultList stA "u1" (strTrim "a"))⟩ ∧
    (⟨imCat, some ⟨"pics", "pics"⟩⟩ : PImage).image ∈ stA.images ∧
    List.Perm ((searchResultList stA "u1" "a").map PImage.image) (searchMatching stA "u1" "a") :=
  ⟨(search_contract stA "u1" (some " ")).1 (by decide),
   (search_contract stA "u1" (some "a")).2.1 "a" rfl (by decide) (by decide),
   ((search_contract stA "u1" (some "a")).2.2.2.2.1 "a" ⟨imCat, some ⟨"pics", "pics"⟩⟩
     (by decide)).1,
   (search_contract stA "u1" (some "a")).2.2.2.2.2 "a" (by decide)⟩

/-- C5: listing with a falsy folder parameter returns exactly the images of
the caller with no folder reference; with a folder id it is a 404 unless a
folder with that id is owned by the caller, and otherwise returns exactly
the images of the caller in that folder; the success lists are sorted by
name ascending and carry the populated folder reference. -/
theorem list_contract (st : State) (u : String) (fp : Option String) :
    (jsTruthy fp = false → listImages st u fp = ⟨200, .imageList (listResult st u none)⟩) ∧
    (∀ s, fp = some s → jsTruthy fp = true → folderFindOne st s u = none →
      listImages st u fp = ⟨404, .message "Folder not found"⟩) ∧
    (∀ s fd, fp = some s → jsTruthy fp = true → folderFindOne st s u = some fd →
      listImages st u fp = ⟨200, .imageList (listResult st u (some s))⟩) ∧
    (∀ fopt, List.Sorted pimgLe (listResult st u fopt)) ∧
    (∀ fopt, List.Perm ((listResult st u fopt).map PImage.image)
      (st.images.filter (listFilter u fopt))) ∧
    (∀ fopt p, p ∈ listResult st u fopt →
      p.image ∈ st.images ∧ p.image.owner = u ∧ p.image.folder = fopt ∧
      p.folderInfo = lookupFolderInfo st p.image.folder) := by
  refine ⟨?_, ?_, ?_, ?_, ?_, ?_⟩
  · intro h
    simp [listImages, h]
  · intro s hq ht hf
    subst hq
    simp [listImages, ht, hf]
  · intro s fd hq ht hf
    subst hq
    simp [listImages, ht, hf]
  · intro fopt
    exact sorted_map_expand st _ (sorted_sortByName _)
  · intro fopt
    simp only [listResult]
    rw [map_image_map_expand]
    exact perm_sortByName _
  · intro fopt p hp
    simp only [listResult] at hp
    have h := mem_map_expand st _ p hp
    have h1 : p.image ∈ st.images.filter (listFilter u fopt) :=
      (perm_sortByName _).mem_iff.1 h.1
    rw [List.mem_filter, listFilter, Bool.and_eq_true, beq_iff_eq, beq_iff_eq] at h1
    exact ⟨h1.1, h1.2.1, h1.2.2, h.2⟩

/-- Witness for C5: on a concrete store, the root listing, a 404 for an
unknown folder id, a folder listing, and the membership characterization at
a concrete element. -/
theorem list_contract_witness :
    listImages stA "u1" none = ⟨200, .imageList (listResult stA "u1" none)⟩ ∧
    listImages stA "u1" (some "f9") = ⟨404, .message "Folder not found"⟩ ∧
    listImages stA "u1" (some "f1") = ⟨200, .imageList (listResult stA "u1" (some "f1"))⟩ ∧
    (⟨imAnt, none⟩ : PImage).image.folder = none :=
  ⟨(list_contract stA "u1" none).1 (by decide),
   (list_contract stA "u1" (some "f9")).2.1 "f9" rfl (by decide) (by decide),
   (list_contract stA "u1" (some "f1")).2.2.1 "f1" fA rfl (by decide) (by decide),
   ((list_contract stA "u1" none).2.2.2.2.2 none ⟨imAnt, none⟩ (by decide)).2.2.1⟩

/-- C6: documenting the divergence — a file of a non-allow-listed content
type is rejected by the fileFilter with a plain Error (not a MulterError)
carrying the descriptive message, and the error-handling middleware of the
router does not answer it: it passes the error on to the host application
(result none), so this module produces no 400 response for it. -/
theorem filetype_rejection_unhandled :
    multerIntake none none (some ⟨10, "text/plain"⟩) =
      .error (.plainError "Invalid file type. Only JPEG, PNG and GIF images are allowed.") ∧
    multerErrorMiddleware
      (.plainError "Invalid file type. Only JPEG, PNG and GIF images are allowed.") = none :=
  ⟨rfl, rfl⟩

/-- C7: documenting the divergence — when the save of the new record throws
a ValidationError, the inner storage try-catch intercepts it and the upload
route answers 500 with the storage-failure message (store unchanged); the
outer catch clause, which would flatten a ValidationError into a joined 400
message, never receives it. -/
theorem save_validation_error_yields_500 :
    uploadImage stA "u1" (some "new") (some "f1") (some ⟨9, "image/png"⟩) "i9"
      (.ok ⟨"http://x", "px"⟩) (.validationError ["Name is too long"]) =
      (⟨500, .message "Failed to upload image to cloud storage"⟩, stA) ∧
    uploadCatch (.validationError ["Name is too long"]) =
      ⟨400, .message "Name is too long"⟩ :=
  ⟨by decide, by decide⟩

/-- C8: a rename whose trimmed new name equals the current name of the image
does not trigger the duplicate-name conflict, because the check excludes
the image itself by id; under the per-scope name-uniqueness invariant the
rename succeeds and returns the updated image with the folder populated. -/
theorem rename_self_no_conflict (st : State) (u id newName : String) (im : Image)
    (hn : nameMissing (some newName) = false)
    (hfind : st.images.find? (fun o => o.id == id && o.owner == u) = some im)
    (hname : strTrim newName = im.name)
    (hscope : renameDupScope st im = im.folder)
    (huniq : ∀ o ∈ st.images, o.owner = im.owner → o.folder = im.folder →
      o.name = im.name → o.id = im.id) :
    renameImage st u id (some newName) =
      (⟨200, .singleImage (expandFolder st { im with name := strTrim newName })⟩,
       ⟨st.folders,
        st.images.map (fun o =>
          if o.id == im.id then { im with name := strTrim newName } else o)⟩) := by
  have himOwner : im.owner = u := by
    have hh := List.find?_some hfind
    rw [Bool.and_eq_true, beq_iff_eq, beq_iff_eq] at hh
    exact hh.2
  have hany : st.images.any (renameDup u (renameDupScope st im) (strTrim newName) im.id)
      = false := by
    rw [List.any_eq_false]
    intro o ho h
    rw [renameDup, hscope, hname] at h
    simp only [Bool.and_eq_true, Bool.not_eq_true', beq_iff_eq, beq_eq_false_iff_ne] at h
    exact h.2 (huniq o ho (h.1.1.1.trans himOwner.symm) h.1.1.2 h.1.2)
  simp [renameImage, hn, hfind, hany]

/-- Witness for C8: on a concrete store, renaming the image named Cat to
Cat succeeds with the expected response and updated store. -/
theorem rename_self_no_conflict_witness :
    renameImage stA "u1" "i1" (some "Cat") =
      (⟨200, .singleImage (expandFolder stA { imCat with name := strTrim "Cat" })⟩,
       ⟨stA.folders,
        stA.images.map (fun o =>
          if o.id == imCat.id then { imCat with name := strTrim "Cat" } else o)⟩) :=
  rename_self_no_conflict stA "u1" "i1" "Cat" imCat (by decide) (by decide) (by decide)
    (by decide) (by decide)

/-- C9: an upload rejected for exceeding the configured size limit is
answered with exactly the fixed 5MB message, whatever the configured limit
actually is. -/
theorem size_limit_message_fixed (sizeCfg : Option Nat) (typeCfg : Option String)
    (f : FileInfo)
    (hty : (allowedTypes typeCfg).contains f.mimetype = true)
    (hsz : fileSizeLimitBytes sizeCfg < f.size) :
    multerIntake sizeCfg typeCfg (some f) =
      .error (.multerError "LIMIT_FILE_SIZE" "File too large") ∧
    multerErrorMiddleware (.multerError "LIMIT_FILE_SIZE" "File too large") =
      some ⟨400, .message "File size too large. Maximum size is 5MB."⟩ := by
  constructor
  · have hmem : f.mimetype ∈ allowedTypes typeCfg := by simpa using hty
    simp [multerIntake, fileFilterCheck, hmem, hsz]
  · rfl

/-- Witness for C9: with a configured limit of 100 bytes, a 101-byte PNG is
rejected and the response message still names 5MB. -/
theorem size_limit_message_fixed_witness :
    multerIntake (some 100) none (some ⟨101, "image/png"⟩) =
      .error (.multerError "LIMIT_FILE_SIZE" "File too large") ∧
    multerErrorMiddleware (.multerError "LIMIT_FILE_SIZE" "File too large") =
      some ⟨400, .message "File size too large. Maximum size is 5MB."⟩ :=
  size_limit_message_fixed (some 100) none ⟨101, "image/png"⟩ (by decide) (by decide)

/-- C10: both duplicate-name checks compare the exact trimmed name, so a
target name that differs from every sibling name only in letter case (every
case-variant sibling is not exactly equal) passes the check: the upload is
created (201), and the rename succeeds (200). -/
theorem name_check_case_sensitive (st : State) (u fid name newId id newName : String)
    (f : FileInfo) (cr : CloudResult) (fd : Folder) (im : Image) :
    (nameMissing (some name) = false → jsTruthy (some fid) = true →
      folderFindOne st fid u = some fd →
      (∀ o ∈ st.images, o.owner = u → o.folder = some fid →
        lowerChars o.name.data = lowerChars (strTrim name).data → o.name ≠ strTrim name) →
      (uploadImage st u (some name) (some fid) (some f) newId (.ok cr) .ok).1.status = 201) ∧
    (nameMissing (some newName) = false →
      st.images.find? (fun o => o.id == id && o.owner == u) = some im →
      (∀ o ∈ st.images, o.owner = u → o.folder = renameDupScope st im →
        lowerChars o.name.data = lowerChars (strTrim newName).data →
        o.name ≠ strTrim newName) →
      (renameImage st u id (some newName)).1.status = 200) := by
  constructor
  · intro hn hfid hfd hvar
    have hany : st.images.any (uploadDup u fid (strTrim name)) = false := by
      rw [List.any_eq_false]
      intro o ho h
      rw [uploadDup] at h
      simp only [Bool.and_eq_true, beq_iff_eq] at h
      exact hvar o ho h.1.1 h.1.2 (by rw [h.2]) h.2
    simp [uploadImage, hn, hfid, hfd, hany]
  · intro hn hfind hvar
    have hany : st.images.any
        (renameDup u (renameDupScope st im) (strTrim newName) im.id) = false := by
      rw [List.any_eq_false]
      intro o ho h
      rw [renameDup] at h
      simp only [Bool.and_eq_true, Bool.not_eq_true', beq_iff_eq, beq_eq_false_iff_ne] at h
      exact hvar o ho h.1.1.1 h.1.1.2 (by rw [h.1.2]) h.1.2
    simp [renameImage, hn, hfind, hany]

/-- Witness for C10: with an image named Cat in the folder, uploading cat
is created, and renaming the image named dog to CAT succeeds. -/
theorem name_check_case_sensitive_witness :
    (uploadImage stA "u1" (some "cat") (some "f1") (some ⟨9, "image/png"⟩) "i9"
      (.ok ⟨"http://x", "px"⟩) .ok).1.status = 201 ∧
    (renameImage stA "u1" "i2" (some "CAT")).1.status = 200 :=
  ⟨(name_check_case_sensitive stA "u1" "f1" "cat" "i9" "i2" "CAT" ⟨9, "image/png"⟩
      ⟨"http://x", "px"⟩ fA imDog).1 (by decide) (by decide) (by decide) (by decide),
   (name_check_case_sensitive stA "u1" "f1" "cat" "i9" "i2" "CAT" ⟨9, "image/png"⟩
      ⟨"http://x", "px"⟩ fA imDog).2 (by decide) (by decide) (by decide)⟩

end PicStore
